import Mathlib

set_option maxHeartbeats 1000000

/-! Shallow embedding of the replica-migration repository:
    utils.py (ReplicationMonitor / ReplicationMetrics) and
    04_cutover.py (CutoverOrchestrator).  Database query results are
    supplied by explicit environment records; a query that raises is an
    Except.error value.  Python floats are modelled as rationals and
    optional values as Option.  -/

/-- Python coercion x or d for an optional integer (None and 0 are falsy). -/
def pyOrInt (o : Option Int) (d : Int) : Int :=
  match o with
  | none => d
  | some v => if v = 0 then d else v

/-- Python coercion x or d for an optional rational, modelling an optional float. -/
def pyOrRat (o : Option ℚ) (d : ℚ) : ℚ :=
  match o with
  | none => d
  | some v => if v = 0 then d else v

/-- db_config.py REPLICATION_LAG_THRESHOLD_BYTES, default 1024 bytes. -/
def REPLICATION_LAG_THRESHOLD_BYTES : Int := 1024

/-- db_config.py REPLICATION_LAG_THRESHOLD_SECONDS, default 1.0 second. -/
def REPLICATION_LAG_THRESHOLD_SECONDS : ℚ := 1

/-- Row returned by get_primary_wal_position in utils.py. -/
structure PrimaryWalRow where
  current_wal_lsn : Option String
  wal_position_bytes : Option Int

/-- Row returned by get_replication_stats in utils.py (pg_stat_replication). -/
structure ReplicationStatsRow where
  state : Option String
  sent_lsn : Option String
  write_lsn : Option String
  flush_lsn : Option String
  replay_lsn : Option String
  sync_state : Option String
  write_lag_seconds : Option ℚ
  flush_lag_seconds : Option ℚ
  replay_lag_seconds : Option ℚ
  byte_lag : Option Int

/-- Row returned by get_replication_slots in utils.py (pg_replication_slots). -/
structure SlotRow where
  slot_name : Option String
  active : Option Bool
  restart_lsn : Option String
  confirmed_flush_lsn : Option String
  retained_bytes : Option Int

/-- Row returned by the standby no-arg status query in check_replica_status. -/
structure ReplicaStatusRow where
  is_in_recovery : Option Bool
  last_wal_receive_lsn : Option String
  last_wal_replay_lsn : Option String
  receive_replay_lag_bytes : Option Int

/-- Environment for one collect_metrics call: the outcome of each of the four
    queries it performs.  Except.error models a raised exception, an inner
    none models a query that returned no rows (the Python code then works on
    an empty dict).  The now field supplies the timestamp. -/
structure MetricsEnv where
  now : String
  primary_wal : Except String (Option PrimaryWalRow)
  replication_stats : Except String (Option ReplicationStatsRow)
  replication_slots : Except String (Option SlotRow)
  replica_status : Except String (Option ReplicaStatusRow)

/-- ReplicationMetrics dataclass from utils.py. -/
structure ReplicationMetrics where
  timestamp : String
  primary_wal_lsn : Option String
  primary_wal_position_bytes : Option Int
  replica_is_in_recovery : Option Bool
  replica_last_wal_receive_lsn : Option String
  replica_last_wal_replay_lsn : Option String
  sent_lsn : Option String
  write_lsn : Option String
  flush_lsn : Option String
  replay_lsn : Option String
  write_lag_seconds : Option ℚ
  flush_lag_seconds : Option ℚ
  replay_lag_seconds : Option ℚ
  byte_lag : Option Int
  slot_name : Option String
  slot_active : Option Bool
  replication_state : Option String
  sync_state : Option String
  is_healthy : Bool
  is_in_sync : Bool
  warnings : List String

/-- check_replica_status from utils.py: returns the row dict, an empty dict
    when no row came back, and on an exception logs a warning and returns a
    dict whose entries all read as None.  First component is the dict view,
    second the emitted log lines. -/
def check_replica_status (q : Except String (Option ReplicaStatusRow)) :
    ReplicaStatusRow × List String :=
  match q with
  | .ok (some row) => (row, [])
  | .ok none => (⟨none, none, none, none⟩, [])
  | .error e => (⟨none, none, none, none⟩, ["Could not query replica: " ++ e])

/-- collect_metrics from utils.py.  The three primary-side queries propagate
    exceptions; the standby query is shielded by check_replica_status. -/
def collect_metrics (env : MetricsEnv) : Except String ReplicationMetrics :=
  match env.primary_wal with
  | .error e => .error e
  | .ok primary_wal =>
    match env.replication_stats with
    | .error e => .error e
    | .ok replication_stats =>
      match env.replication_slots with
      | .error e => .error e
      | .ok replication_slots =>
        let replica_status := (check_replica_status env.replica_status).1
        let byte_lag : Option Int := replication_stats.bind (fun r => r.byte_lag)
        let replay_lag : Option ℚ := replication_stats.bind (fun r => r.replay_lag_seconds)
        let slot_active : Option Bool := replication_slots.bind (fun r => r.active)
        let warnings : List String :=
          (if replication_stats.isNone then ["No active replication connection found"] else []) ++
          (match byte_lag with
           | none => []
           | some v => if v ≠ 0 ∧ 1024 * 1024 < v
                       then ["High byte lag: " ++ toString v ++ " bytes"] else []) ++
          (match replay_lag with
           | none => []
           | some r => if r ≠ 0 ∧ 5 < r
                       then ["High replay lag: " ++ toString r ++ " seconds"] else []) ++
          (if slot_active = some true then [] else ["Replication slot is not active"])
        let replication_state : Option String := replication_stats.bind (fun r => r.state)
        let is_healthy : Bool :=
          warnings.isEmpty &&
          decide (replication_state = some "streaming") &&
          decide (replica_status.is_in_recovery = some true)
        let is_in_sync : Bool :=
          is_healthy &&
          (match byte_lag with | none => true | some v => decide (v < 1024)) &&
          (match replay_lag with | none => true | some r => decide (r < 1))
        .ok {
          timestamp := env.now
          primary_wal_lsn := primary_wal.bind (fun r => r.current_wal_lsn)
          primary_wal_position_bytes := primary_wal.bind (fun r => r.wal_position_bytes)
          replica_is_in_recovery := replica_status.is_in_recovery
          replica_last_wal_receive_lsn := replica_status.last_wal_receive_lsn
          replica_last_wal_replay_lsn := replica_status.last_wal_replay_lsn
          sent_lsn := replication_stats.bind (fun r => r.sent_lsn)
          write_lsn := replication_stats.bind (fun r => r.write_lsn)
          flush_lsn := replication_stats.bind (fun r => r.flush_lsn)
          replay_lsn := replication_stats.bind (fun r => r.replay_lsn)
          write_lag_seconds := replication_stats.bind (fun r => r.write_lag_seconds)
          flush_lag_seconds := replication_stats.bind (fun r => r.flush_lag_seconds)
          replay_lag_seconds := replay_lag
          byte_lag := byte_lag
          slot_name := replication_slots.bind (fun r => r.slot_name)
          slot_active := slot_active
          replication_state := replication_state
          sync_state := replication_stats.bind (fun r => r.sync_state)
          is_healthy := is_healthy
          is_in_sync := is_in_sync
          warnings := warnings }

/-- The per-poll in-sync test computed inside wait_for_sync in 04_cutover.py:
    null lags are coerced with the Python or operator, then compared with the
    configured thresholds. -/
def is_synced (m : ReplicationMetrics) : Bool :=
  decide (pyOrInt m.byte_lag 0 ≤ REPLICATION_LAG_THRESHOLD_BYTES) &&
  decide (pyOrRat m.replay_lag_seconds 0 ≤ REPLICATION_LAG_THRESHOLD_SECONDS)

/-- Update of the consecutive_synced counter in wait_for_sync: increment on a
    passing sample, reset to zero on any other sample. -/
def stepCounter (consec : Nat) (synced : Bool) : Nat :=
  if synced then consec + 1 else 0

/-- Successive values of the consecutive_synced counter along a sequence of
    per-poll gate evaluations, starting from zero. -/
def counterTrace (evals : List Bool) : List Nat :=
  (evals.scanl stepCounter 0).tail

/-- required_consecutive from wait_for_sync: must be synced for 3 consecutive
    checks. -/
def required_consecutive : Nat := 3

/-- Outcome of wait_for_sync.  outOfPolls is an artifact of modelling the
    infinite poll stream by a finite list: the supplied list was exhausted
    before the loop decided, which the real loop cannot do. -/
inductive SyncWaitResult
  | success
  | timeout
  | collectError (e : String)
  | outOfPolls
deriving DecidableEq

/-- Loop body of wait_for_sync in 04_cutover.py.  Each iteration first
    compares elapsed time against max_wait_time, then collects a snapshot,
    evaluates the gate and either returns, or sleeps for the check interval
    and recurses.  Queries are modelled as instantaneous, so elapsed time
    grows by interval once per iteration.  The second component counts the
    snapshots consumed. -/
def wait_for_sync_aux (maxWait interval required : Nat) :
    Nat → Nat → Nat → List MetricsEnv → SyncWaitResult × Nat
  | elapsed, _consec, used, _polls =>
    if elapsed > maxWait then (.timeout, used)
    else
      match _polls with
      | [] => (.outOfPolls, used)
      | p :: rest =>
        match collect_metrics p with
        | .error e => (.collectError e, used + 1)
        | .ok m =>
          let c := stepCounter _consec (is_synced m)
          if is_synced m then
            if required ≤ c then (.success, used + 1)
            else wait_for_sync_aux maxWait interval required (elapsed + interval) c (used + 1) rest
          else wait_for_sync_aux maxWait interval required (elapsed + interval) c (used + 1) rest

/-- wait_for_sync from 04_cutover.py, with the poll responses supplied as a
    list of query environments. -/
def wait_for_sync (maxWait interval : Nat) (polls : List MetricsEnv) :
    SyncWaitResult × Nat :=
  wait_for_sync_aux maxWait interval required_consecutive 0 0 0 polls

/-- stop_write_traffic from 04_cutover.py: both in dry-run mode and live it
    only logs and returns True; it issues no database command.  The second
    component is the list of queries issued. -/
def stop_write_traffic (_dry_run : Bool) : Bool × List String :=
  (true, [])

/-- Settle delay at the top of verify_final_sync, time.sleep(2). -/
def FINAL_VERIFY_SETTLE_SECONDS : Nat := 2

/-- The acceptance test of verify_final_sync in 04_cutover.py, applied to the
    freshly collected snapshot: coerced byte lag must equal 0 and coerced
    replay lag must be strictly below 0.1 seconds. -/
def verify_final_sync_test (m : ReplicationMetrics) : Bool :=
  decide (pyOrInt m.byte_lag 0 = 0) && decide (pyOrRat m.replay_lag_seconds 0 < 1/10)

/-- verify_final_sync from 04_cutover.py: sleep, collect one snapshot
    (exceptions propagate) and apply the final acceptance test. -/
def verify_final_sync (env : MetricsEnv) : Except String Bool :=
  match collect_metrics env with
  | .error e => .error e
  | .ok m => .ok (verify_final_sync_test m)

/-- Outcome of promote_replica.  The constructors mirror the distinct exit
    paths of the source: dry-run early return, recovery flag observed clear,
    30 second poll bound exceeded, and the catch-all failure path that also
    covers a rejected promotion command. -/
inductive PromoteResult
  | dryRunOk
  | promoted
  | timeout
  | failed (e : String)
deriving DecidableEq

/-- Boolean value returned to execute_cutover by promote_replica. -/
def PromoteResult.toBool : PromoteResult → Bool
  | .dryRunOk => true
  | .promoted => true
  | .timeout => false
  | .failed _ => false

/-- Environment for promote_replica: the outcome of the pg_promote call and
    of each pg_is_in_recovery poll. -/
structure PromoteEnv where
  promoteCmd : Except String Unit
  recoveryPolls : Nat → Except String Bool

/-- Recovery-flag poll loop of promote_replica: while elapsed time is below
    the 30 second bound, query the recovery flag (an exception is caught by
    the surrounding handler and becomes a failure), succeed the moment it is
    clear, otherwise sleep one second and retry.  Queries are modelled as
    instantaneous, so at entry to iteration i the elapsed time is i seconds.
    The second component counts the polls performed. -/
def promotePollLoop (polls : Nat → Except String Bool) (i : Nat) : PromoteResult × Nat :=
  if i < 30 then
    match polls i with
    | .error e => (.failed e, i + 1)
    | .ok true => promotePollLoop polls (i + 1)
    | .ok false => (.promoted, i + 1)
  else (.timeout, i)
termination_by 30 - i

/-- promote_replica from 04_cutover.py.  In dry-run mode it returns success
    before touching the database.  Otherwise it issues pg_promote once and
    enters the poll loop; any exception yields the failed outcome.  The
    second component lists the queries issued in order. -/
def promote_replica (dry_run : Bool) (env : PromoteEnv) : PromoteResult × List String :=
  if dry_run then (.dryRunOk, [])
  else
    match env.promoteCmd with
    | .error e => (.failed e, ["SELECT pg_promote()"])
    | .ok _ =>
      let r := promotePollLoop env.recoveryPolls 0
      (r.1, "SELECT pg_promote()" :: List.replicate r.2 "SELECT pg_is_in_recovery()")

/-- Environment for demote_old_primary: outcomes of the two statements it
    executes against the old primary. -/
structure DemoteEnv where
  alterSystem : Except String Unit
  reloadConf : Except String Unit

/-- demote_old_primary from 04_cutover.py.  Dry-run returns success before
    touching the database; otherwise it sets the old primary read-only and
    reloads its configuration, any exception yielding failure.  The second
    component lists the statements issued. -/
def demote_old_primary (dry_run : Bool) (env : DemoteEnv) : Bool × List String :=
  if dry_run then (true, [])
  else
    match env.alterSystem with
    | .error _ => (false, ["ALTER SYSTEM SET default_transaction_read_only = on"])
    | .ok _ =>
      match env.reloadConf with
      | .error _ => (false, ["ALTER SYSTEM SET default_transaction_read_only = on",
                             "SELECT pg_reload_conf()"])
      | .ok _ => (true, ["ALTER SYSTEM SET default_transaction_read_only = on",
                         "SELECT pg_reload_conf()"])

/-- Environment for check_prerequisites: the two SELECT 1 connectivity probes
    plus the query environment of the collect_metrics call it performs. -/
structure PrereqEnv where
  primarySelect1 : Except String Unit
  replicaSelect1 : Except String Unit
  metricsEnv : MetricsEnv

/-- Text of the replication-state issue appended by check_prerequisites. -/
def stateIssueMsg (s : Option String) : String :=
  "Replication state is " ++ (match s with | none => "None" | some x => x) ++
  ", expected streaming"

/-- check_prerequisites from 04_cutover.py.  The two connectivity probes are
    individually shielded and contribute issues; the subsequent
    collect_metrics call is not shielded, so an exception there propagates
    out of the step.  Returns (is_ready, issues). -/
def check_prerequisites (pe : PrereqEnv) : Except String (Bool × List String) :=
  let connIssues : List String :=
    (match pe.primarySelect1 with
     | .ok _ => []
     | .error e => ["Cannot connect to primary: " ++ e]) ++
    (match pe.replicaSelect1 with
     | .ok _ => []
     | .error e => ["Cannot connect to replica: " ++ e])
  match collect_metrics pe.metricsEnv with
  | .error e => .error e
  | .ok metrics =>
    let issues : List String := connIssues ++
      (if metrics.replica_is_in_recovery = some true then []
       else ["Replica is not in recovery mode"]) ++
      (if metrics.replication_state = some "streaming" then []
       else [stateIssueMsg metrics.replication_state]) ++
      (if metrics.slot_active = some true then []
       else ["Replication slot is not active"])
    .ok (issues.isEmpty, issues)

/-- The cutover report assembled by generate_cutover_report: status line,
    dry-run flag, and the final metrics section, which is none when the final
    collect_metrics call raised (the report then shows the could-not-fetch
    line instead). -/
structure CutoverReport where
  success : Bool
  dry_run : Bool
  finalMetrics : Option ReplicationMetrics

/-- generate_cutover_report from 04_cutover.py: the final metrics read is
    shielded, a failure being recorded in the report rather than raised. -/
def generate_cutover_report (success dry_run : Bool)
    (finalRead : Except String ReplicationMetrics) : CutoverReport :=
  { success := success
    dry_run := dry_run
    finalMetrics := match finalRead with | .ok m => some m | .error _ => none }

/-- The seven orchestration steps of execute_cutover, in order. -/
inductive StepName
  | prerequisites
  | syncWait
  | freezeWrites
  | finalVerify
  | promote
  | validateNewPrimary
  | demoteOldPrimary
deriving DecidableEq

/-- Outcome of each step call made by execute_cutover, as seen at its call
    site: Except.error models the call raising an exception.  reportMetrics
    is the outcome of the final collect_metrics read made for the report. -/
structure StepOutcomes where
  dry_run : Bool
  prereq : Except String (Bool × List String)
  syncWaitOutcome : Except String Bool
  stopWriteOutcome : Except String Bool
  finalVerifyOutcome : Except String Bool
  promoteOutcome : Except String Bool
  validateOutcome : Except String Bool
  demoteOutcome : Except String Bool
  reportMetrics : Except String ReplicationMetrics

/-- The try-block of execute_cutover: run the steps in order, aborting on a
    failed fatal step (returning false) and propagating any exception;
    demote_old_primary failure is logged only.  Also records which steps were
    invoked, in order. -/
def cutoverBody (o : StepOutcomes) : Except String Bool × List StepName :=
  match o.prereq with
  | .error e => (.error e, [.prerequisites])
  | .ok pr =>
    if pr.1 = false then (.ok false, [.prerequisites])
    else
      match o.syncWaitOutcome with
      | .error e => (.error e, [.prerequisites, .syncWait])
      | .ok false => (.ok false, [.prerequisites, .syncWait])
      | .ok true =>
        match o.stopWriteOutcome with
        | .error e => (.error e, [.prerequisites, .syncWait, .freezeWrites])
        | .ok false => (.ok false, [.prerequisites, .syncWait, .freezeWrites])
        | .ok true =>
          match o.finalVerifyOutcome with
          | .error e => (.error e, [.prerequisites, .syncWait, .freezeWrites, .finalVerify])
          | .ok false => (.ok false, [.prerequisites, .syncWait, .freezeWrites, .finalVerify])
          | .ok true =>
            match o.promoteOutcome with
            | .error e =>
              (.error e, [.prerequisites, .syncWait, .freezeWrites, .finalVerify, .promote])
            | .ok false =>
              (.ok false, [.prerequisites, .syncWait, .freezeWrites, .finalVerify, .promote])
            | .ok true =>
              match o.validateOutcome with
              | .error e =>
                (.error e, [.prerequisites, .syncWait, .freezeWrites, .finalVerify,
                            .promote, .validateNewPrimary])
              | .ok false =>
                (.ok false, [.prerequisites, .syncWait, .freezeWrites, .finalVerify,
                             .promote, .validateNewPrimary])
              | .ok true =>
                match o.demoteOutcome with
                | .error e =>
                  (.error e, [.prerequisites, .syncWait, .freezeWrites, .finalVerify,
                              .promote, .validateNewPrimary, .demoteOldPrimary])
                | .ok _ =>
                  (.ok true, [.prerequisites, .syncWait, .freezeWrites, .finalVerify,
                              .promote, .validateNewPrimary, .demoteOldPrimary])

/-- Result of one execute_cutover run: the Boolean the function returns, the
    reports emitted by its finally-block, and the steps invoked. -/
structure RunResult where
  success : Bool
  reports : List CutoverReport
  invoked : List StepName

/-- execute_cutover from 04_cutover.py.  The try-block either returns a
    Boolean or raises; the except-handler converts an exception into a false
    return; the finally-block emits exactly one report, whose status is the
    success local variable (set to true only when the whole sequence
    completed). -/
def execute_cutover (o : StepOutcomes) : RunResult :=
  let body := cutoverBody o
  let successVar : Bool := match body.1 with | .ok true => true | _ => false
  let returned : Bool := match body.1 with | .ok b => b | .error _ => false
  let report := generate_cutover_report successVar o.dry_run o.reportMetrics
  { success := returned, reports := [report], invoked := body.2 }

/-- Mapping of a wait_for_sync outcome to the Boolean seen by
    execute_cutover: a collect_metrics exception inside the loop propagates;
    exhaustion of the modelled poll list is treated as failure. -/
def syncResultToExcept : SyncWaitResult → Except String Bool
  | .success => .ok true
  | .timeout => .ok false
  | .collectError e => .error e
  | .outOfPolls => .ok false

/-- Environment for a whole orchestrator run.  validate_new_primary catches
    every exception internally and returns a Boolean; no claim concerns its
    internals, so only that Boolean is supplied here. -/
structure CutoverEnv where
  dry_run : Bool
  max_wait_time : Nat
  sync_check_interval : Nat
  prereqEnv : PrereqEnv
  syncPolls : List MetricsEnv
  finalVerifyEnv : MetricsEnv
  promoteEnv : PromoteEnv
  validateResult : Bool
  demoteEnv : DemoteEnv
  reportMetricsEnv : MetricsEnv

/-- Step outcomes produced by the concrete step implementations for a run. -/
def stepOutcomesOf (env : CutoverEnv) : StepOutcomes :=
  { dry_run := env.dry_run
    prereq := check_prerequisites env.prereqEnv
    syncWaitOutcome :=
      syncResultToExcept (wait_for_sync env.max_wait_time env.sync_check_interval env.syncPolls).1
    stopWriteOutcome := .ok (stop_write_traffic env.dry_run).1
    finalVerifyOutcome := verify_final_sync env.finalVerifyEnv
    promoteOutcome := .ok (promote_replica env.dry_run env.promoteEnv).1.toBool
    validateOutcome := .ok env.validateResult
    demoteOutcome := .ok (demote_old_primary env.dry_run env.demoteEnv).1
    reportMetrics := collect_metrics env.reportMetricsEnv }

/-- One full orchestrator run. -/
def runCutover (env : CutoverEnv) : RunResult :=
  execute_cutover (stepOutcomesOf env)

/-- A fully healthy stats row with zero lag. -/
def statsRowHealthy : ReplicationStatsRow :=
  { state := some "streaming"
    sent_lsn := some "0/5000000"
    write_lsn := some "0/5000000"
    flush_lsn := some "0/5000000"
    replay_lsn := some "0/5000000"
    sync_state := some "async"
    write_lag_seconds := some 0
    flush_lag_seconds := some 0
    replay_lag_seconds := some 0
    byte_lag := some 0 }

/-- A stats row whose byte lag is above the sync-gate threshold. -/
def statsRowLaggy : ReplicationStatsRow :=
  { statsRowHealthy with byte_lag := some 4096 }

/-- An active replication slot row. -/
def slotRowActive : SlotRow :=
  { slot_name := some "replica_slot"
    active := some true
    restart_lsn := some "0/5000000"
    confirmed_flush_lsn := some "0/5000000"
    retained_bytes := some 0 }

/-- An inactive replication slot row. -/
def slotRowInactive : SlotRow :=
  { slotRowActive with active := some false }

/-- A standby status row reporting recovery in progress. -/
def replicaRowInRecovery : ReplicaStatusRow :=
  { is_in_recovery := some true
    last_wal_receive_lsn := some "0/5000000"
    last_wal_replay_lsn := some "0/5000000"
    receive_replay_lag_bytes := some 0 }

/-- A primary WAL position row. -/
def primaryWalRow : PrimaryWalRow :=
  { current_wal_lsn := some "0/5000000"
    wal_position_bytes := some 83886080 }

/-- Query environment of a healthy, fully synced poll. -/
def envHealthy : MetricsEnv :=
  { now := "t0"
    primary_wal := .ok (some primaryWalRow)
    replication_stats := .ok (some statsRowHealthy)
    replication_slots := .ok (some slotRowActive)
    replica_status := .ok (some replicaRowInRecovery) }

/-- Query environment of a poll whose byte lag misses the sync gate. -/
def envLaggy : MetricsEnv :=
  { envHealthy with replication_stats := .ok (some statsRowLaggy) }

/-- Query environment in which the standby query raises and everything else
    is healthy. -/
def envStandbyDown : MetricsEnv :=
  { envHealthy with replica_status := .error "standby timeout" }

/-- Query environment in which every primary-side query raises. -/
def envPrimaryDown : MetricsEnv :=
  { envHealthy with
    primary_wal := .error "connection refused"
    replication_stats := .error "connection refused"
    replication_slots := .error "connection refused" }

/-- Query environment in which no replication-stream row exists for the
    expected channel. -/
def envNoStreamRow : MetricsEnv :=
  { envHealthy with replication_stats := .ok none }

/-- Prerequisites environment in which both probes succeed but the slot is
    inactive. -/
def prereqEnvSlotInactive : PrereqEnv :=
  { primarySelect1 := .ok ()
    replicaSelect1 := .ok ()
    metricsEnv := { envHealthy with replication_slots := .ok (some slotRowInactive) } }

/-- Prerequisites environment with an unreachable primary: the probe raises
    and so do the primary-side metrics queries. -/
def prereqEnvPrimaryDown : PrereqEnv :=
  { primarySelect1 := .error "connection refused"
    replicaSelect1 := .ok ()
    metricsEnv := envPrimaryDown }

/-- Healthy prerequisites environment. -/
def prereqEnvHealthy : PrereqEnv :=
  { primarySelect1 := .ok ()
    replicaSelect1 := .ok ()
    metricsEnv := envHealthy }

/-- A promote environment whose recovery flag clears at the third poll. -/
def promoteEnvClearsAt2 : PromoteEnv :=
  { promoteCmd := .ok ()
    recoveryPolls := fun i => .ok (decide (i < 2)) }

/-- A promote environment whose recovery flag never clears. -/
def promoteEnvNeverClears : PromoteEnv :=
  { promoteCmd := .ok ()
    recoveryPolls := fun _ => .ok true }

/-- A promote environment whose promotion command is rejected. -/
def promoteEnvRejected : PromoteEnv :=
  { promoteCmd := .error "permission denied"
    recoveryPolls := fun _ => .ok true }

/-- A full cutover environment whose prerequisites fail on an inactive
    slot. -/
def cutoverEnvSlotInactive : CutoverEnv :=
  { dry_run := false
    max_wait_time := 300
    sync_check_interval := 5
    prereqEnv := prereqEnvSlotInactive
    syncPolls := [envHealthy, envHealthy, envHealthy]
    finalVerifyEnv := envHealthy
    promoteEnv := promoteEnvClearsAt2
    validateResult := true
    demoteEnv := { alterSystem := .ok (), reloadConf := .ok () }
    reportMetricsEnv := envHealthy }

/-- Snapshot collected from envHealthy. -/
def mHealthy : ReplicationMetrics :=
  { timestamp := "t0"
    primary_wal_lsn := some "0/5000000"
    primary_wal_position_bytes := some 83886080
    replica_is_in_recovery := some true
    replica_last_wal_receive_lsn := some "0/5000000"
    replica_last_wal_replay_lsn := some "0/5000000"
    sent_lsn := some "0/5000000"
    write_lsn := some "0/5000000"
    flush_lsn := some "0/5000000"
    replay_lsn := some "0/5000000"
    write_lag_seconds := some 0
    flush_lag_seconds := some 0
    replay_lag_seconds := some 0
    byte_lag := some 0
    slot_name := some "replica_slot"
    slot_active := some true
    replication_state := some "streaming"
    sync_state := some "async"
    is_healthy := true
    is_in_sync := true
    warnings := [] }

/-- Snapshot collected from envLaggy. -/
def mLaggy : ReplicationMetrics :=
  { mHealthy with byte_lag := some 4096, is_in_sync := false }

/-- Snapshot collected from envStandbyDown. -/
def mStandbyDown : ReplicationMetrics :=
  { mHealthy with
    replica_is_in_recovery := none
    replica_last_wal_receive_lsn := none
    replica_last_wal_replay_lsn := none
    is_healthy := false
    is_in_sync := false }

/-- Snapshot collected from envNoStreamRow. -/
def mNoStream : ReplicationMetrics :=
  { timestamp := "t0"
    primary_wal_lsn := some "0/5000000"
    primary_wal_position_bytes := some 83886080
    replica_is_in_recovery := some true
    replica_last_wal_receive_lsn := some "0/5000000"
    replica_last_wal_replay_lsn := some "0/5000000"
    sent_lsn := none
    write_lsn := none
    flush_lsn := none
    replay_lsn := none
    write_lag_seconds := none
    flush_lag_seconds := none
    replay_lag_seconds := none
    byte_lag := none
    slot_name := some "replica_slot"
    slot_active := some true
    replication_state := none
    sync_state := none
    is_healthy := false
    is_in_sync := false
    warnings := ["No active replication connection found"] }

lemma collect_envHealthy : collect_metrics envHealthy = .ok mHealthy := rfl

lemma collect_envLaggy : collect_metrics envLaggy = .ok mLaggy := rfl

lemma collect_envStandbyDown : collect_metrics envStandbyDown = .ok mStandbyDown := rfl

lemma collect_envNoStreamRow : collect_metrics envNoStreamRow = .ok mNoStream := rfl

lemma is_synced_mHealthy : is_synced mHealthy = true := rfl

lemma is_synced_mLaggy : is_synced mLaggy = false := rfl

/-- Prerequisites environment in which only the primary SELECT 1 probe
    raises, while the metrics queries still succeed. -/
def prereqEnvProbeDown : PrereqEnv :=
  { primarySelect1 := .error "probe refused"
    replicaSelect1 := .ok ()
    metricsEnv := envHealthy }

/-- Query environment identical to envHealthy except for one byte of lag. -/
def envByte1 : MetricsEnv :=
  { envHealthy with replication_stats := .ok (some { statsRowHealthy with byte_lag := some 1 }) }

/-- Snapshot collected from envByte1. -/
def mByte1 : ReplicationMetrics :=
  { mHealthy with byte_lag := some 1 }

lemma collect_envByte1 : collect_metrics envByte1 = .ok mByte1 := rfl

/-- Python x or 0 on a present integer is the integer itself. -/
lemma pyOrInt_some (v : Int) : pyOrInt (some v) 0 = v := by
  by_cases h : v = 0 <;> simp [pyOrInt, h]

/-- Python x or 0 on a present rational is the rational itself. -/
lemma pyOrRat_some (v : ℚ) : pyOrRat (some v) 0 = v := by
  by_cases h : v = 0 <;> simp [pyOrRat, h]

/-- C3: every snapshot returned by collect_metrics, whatever query results it
    was built from, satisfies is_in_sync implies is_healthy; no reachable
    snapshot has is_in_sync true and is_healthy false. -/
theorem claim_c3_in_sync_implies_healthy (env : MetricsEnv) (m : ReplicationMetrics)
    (hc : collect_metrics env = .ok m) (hs : m.is_in_sync = true) : m.is_healthy = true := by
  rcases env with ⟨now, pw, rs, sl, st⟩
  cases pw with
  | error e => simp [collect_metrics] at hc
  | ok pw =>
  cases rs with
  | error e => simp [collect_metrics] at hc
  | ok rs =>
  cases sl with
  | error e => simp [collect_metrics] at hc
  | ok sl =>
  simp only [collect_metrics, Except.ok.injEq] at hc
  subst hc
  simp only [Bool.and_eq_true] at hs ⊢
  exact hs.1.1

/-- Witness for C3 at the healthy environment. -/
theorem claim_c3_witness : mHealthy.is_healthy = true :=
  claim_c3_in_sync_implies_healthy envHealthy mHealthy collect_envHealthy rfl

/-- C2: every run of execute_cutover emits exactly one report, on every exit
    path (step failure, step exception, success); the report status equals
    the run outcome; a failing final metrics read is recorded in the report
    as unavailable and never changes the run outcome or the executed steps. -/
theorem claim_c2_report_exactly_once (o : StepOutcomes)
    (rm : Except String ReplicationMetrics) (s : String) :
    (execute_cutover o).reports.length = 1
    ∧ (execute_cutover o).reports.map (fun r => r.success) = [(execute_cutover o).success]
    ∧ (execute_cutover { o with reportMetrics := Except.error s }).reports.map
        (fun r => r.finalMetrics) = [none]
    ∧ (execute_cutover { o with reportMetrics := rm }).success = (execute_cutover o).success
    ∧ (execute_cutover { o with reportMetrics := rm }).invoked = (execute_cutover o).invoked := by
  have hupd : ∀ x : Except String ReplicationMetrics,
      cutoverBody { o with reportMetrics := x } = cutoverBody o := fun _ => rfl
  refine ⟨rfl, ?_, rfl, ?_, ?_⟩
  · simp only [execute_cutover, generate_cutover_report, List.map_cons, List.map_nil,
      List.cons.injEq, and_true]
    rcases hb : (cutoverBody o).1 with e | b
    · rfl
    · cases b <;> rfl
  · simp only [execute_cutover, hupd]
  · simp only [execute_cutover, hupd]

/-- C8: with dry_run true, the PROMOTE, FREEZE_WRITES and DEMOTE_OLD_PRIMARY
    steps each report success while issuing no command at all to either
    database. -/
theorem claim_c8_dry_run_no_commands (penv : PromoteEnv) (denv : DemoteEnv) :
    promote_replica true penv = (.dryRunOk, [])
    ∧ PromoteResult.toBool .dryRunOk = true
    ∧ stop_write_traffic true = (true, [])
    ∧ demote_old_primary true denv = (true, []) :=
  ⟨rfl, rfl, rfl, rfl⟩

/-- C10: a snapshot whose byte lag and replay lag are both null (for example
    because no replication-stream row exists for the expected channel) is
    coerced to zero lag by both wait_for_sync and verify_final_sync: the poll
    passes the sync gate, increments the consecutive counter, and passes the
    final verification test. -/
theorem claim_c10_null_lags_coerced_to_zero :
    (∀ (m : ReplicationMetrics) (c : Nat), m.byte_lag = none → m.replay_lag_seconds = none →
      is_synced m = true ∧ stepCounter c (is_synced m) = c + 1 ∧ verify_final_sync_test m = true)
    ∧ (∀ (env : MetricsEnv) (m : ReplicationMetrics), env.replication_stats = .ok none →
        collect_metrics env = .ok m → m.byte_lag = none ∧ m.replay_lag_seconds = none) := by
  constructor
  · intro m c hb hr
    have hsync : is_synced m = true := by
      simp only [is_synced, hb, hr]
      decide
    refine ⟨hsync, by simp [stepCounter, hsync], ?_⟩
    simp only [verify_final_sync_test, hb, hr]
    norm_num [pyOrInt, pyOrRat]
  · intro env m hs hc
    rcases env with ⟨now, pw, rs, sl, st⟩
    simp only at hs
    subst hs
    cases pw with
    | error e => simp [collect_metrics] at hc
    | ok pw =>
    cases sl with
    | error e => simp [collect_metrics] at hc
    | ok sl =>
    simp only [collect_metrics, Except.ok.injEq] at hc
    subst hc
    exact ⟨rfl, rfl⟩

/-- Witness for C10 at the no-stream-row environment. -/
theorem claim_c10_witness :
    is_synced mNoStream = true ∧ stepCounter 0 (is_synced mNoStream) = 1
    ∧ verify_final_sync_test mNoStream = true
    ∧ mNoStream.byte_lag = none ∧ mNoStream.replay_lag_seconds = none := by
  have h1 := claim_c10_null_lags_coerced_to_zero.1 mNoStream 0 rfl rfl
  have h2 := claim_c10_null_lags_coerced_to_zero.2 envNoStreamRow mNoStream rfl
    collect_envNoStreamRow
  exact ⟨h1.1, h1.2.1, h1.2.2, h2.1, h2.2⟩

/-- C4: verify_final_sync accepts exactly the snapshots whose byte lag is 0
    and whose replay lag is strictly below 0.1 seconds; in particular a
    snapshot with one byte of lag is rejected even though the sync-gate
    threshold of 1024 bytes accepts that same snapshot. -/
theorem claim_c4_final_verify_strict (env : MetricsEnv) (m : ReplicationMetrics)
    (b : Int) (r : ℚ) (hc : collect_metrics env = .ok m) :
    (m.byte_lag = some b → m.replay_lag_seconds = some r →
      (verify_final_sync env = .ok true ↔ (b = 0 ∧ r < 1/10)))
    ∧ (m.byte_lag = some 1 → verify_final_sync env = .ok false)
    ∧ (m.byte_lag = some 1 →
        pyOrRat m.replay_lag_seconds 0 ≤ REPLICATION_LAG_THRESHOLD_SECONDS →
        is_synced m = true) := by
  have hv : verify_final_sync env = .ok (verify_final_sync_test m) := by
    simp [verify_final_sync, hc]
  refine ⟨?_, ?_, ?_⟩
  · intro hb hr
    rw [hv]
    simp [verify_final_sync_test, hb, hr, pyOrInt_some, pyOrRat_some]
  · intro hb
    rw [hv]
    simp [verify_final_sync_test, hb, pyOrInt_some]
  · intro hb hr
    simp only [is_synced, hb, pyOrInt_some, Bool.and_eq_true, decide_eq_true_eq]
    exact ⟨by decide, hr⟩

/-- Witness for C4 at the one-byte-of-lag environment. -/
theorem claim_c4_witness :
    verify_final_sync envByte1 = .ok false ∧ is_synced mByte1 = true := by
  have h := claim_c4_final_verify_strict envByte1 mByte1 1 0 collect_envByte1
  refine ⟨h.2.1 rfl, h.2.2 rfl ?_⟩
  show pyOrRat (some 0) 0 ≤ REPLICATION_LAG_THRESHOLD_SECONDS
  rw [pyOrRat_some]
  norm_num [REPLICATION_LAG_THRESHOLD_SECONDS]

/-- One wait_for_sync iteration on a passing sample with the required count
    not yet reached: the counter increments and the loop continues. -/
lemma wait_aux_continue {maxWait interval required elapsed consec used : Nat}
    {p : MetricsEnv} {rest : List MetricsEnv} {m : ReplicationMetrics}
    (ht : ¬ elapsed > maxWait) (hc : collect_metrics p = .ok m)
    (hs : is_synced m = true) (hlt : consec + 1 < required) :
    wait_for_sync_aux maxWait interval required elapsed consec used (p :: rest) =
      wait_for_sync_aux maxWait interval required (elapsed + interval) (consec + 1)
        (used + 1) rest := by
  conv_lhs => rw [wait_for_sync_aux]
  simp [ht, hc, hs, stepCounter, Nat.not_le.mpr hlt]

/-- One wait_for_sync iteration on a passing sample that completes the
    required count: the loop returns success. -/
lemma wait_aux_success {maxWait interval required elapsed consec used : Nat}
    {p : MetricsEnv} {rest : List MetricsEnv} {m : ReplicationMetrics}
    (ht : ¬ elapsed > maxWait) (hc : collect_metrics p = .ok m)
    (hs : is_synced m = true) (hge : required ≤ consec + 1) :
    wait_for_sync_aux maxWait interval required elapsed consec used (p :: rest) =
      (.success, used + 1) := by
  conv_lhs => rw [wait_for_sync_aux]
  simp [ht, hc, hs, stepCounter, hge]

/-- One wait_for_sync iteration on a failing sample: the counter resets to
    zero and the loop continues. -/
lemma wait_aux_reset {maxWait interval required elapsed consec used : Nat}
    {p : MetricsEnv} {rest : List MetricsEnv} {m : ReplicationMetrics}
    (ht : ¬ elapsed > maxWait) (hc : collect_metrics p = .ok m)
    (hs : is_synced m = false) :
    wait_for_sync_aux maxWait interval required elapsed consec used (p :: rest) =
      wait_for_sync_aux maxWait interval required (elapsed + interval) 0 (used + 1) rest := by
  conv_lhs => rw [wait_for_sync_aux]
  simp [ht, hc, hs, stepCounter]

/-- C1: on a poll sequence whose gate evaluations are ok, ok, bad, ok, ok, ok
    with the required count 3 and a sufficiently large max wait,
    wait_for_sync returns success exactly at the sixth sample: the counter
    increments on each passing sample, the bad sample resets it to zero, and
    success is returned exactly when it reaches 3. -/
theorem claim_c1_sync_gate_sequence (maxWait interval : Nat)
    (p1 p2 p3 p4 p5 p6 : MetricsEnv) (m1 m2 m3 m4 m5 m6 : ReplicationMetrics)
    (rest : List MetricsEnv)
    (hc1 : collect_metrics p1 = .ok m1) (hc2 : collect_metrics p2 = .ok m2)
    (hc3 : collect_metrics p3 = .ok m3) (hc4 : collect_metrics p4 = .ok m4)
    (hc5 : collect_metrics p5 = .ok m5) (hc6 : collect_metrics p6 = .ok m6)
    (hs1 : is_synced m1 = true) (hs2 : is_synced m2 = true) (hs3 : is_synced m3 = false)
    (hs4 : is_synced m4 = true) (hs5 : is_synced m5 = true) (hs6 : is_synced m6 = true)
    (hw : 5 * interval ≤ maxWait) :
    wait_for_sync maxWait interval (p1 :: p2 :: p3 :: p4 :: p5 :: p6 :: rest) =
      (.success, 6)
    ∧ counterTrace [true, true, false, true, true, true] = [1, 2, 0, 1, 2, 3] := by
  refine ⟨?_, by decide⟩
  rw [wait_for_sync]
  rw [wait_aux_continue (by omega) hc1 hs1 (by decide)]
  rw [wait_aux_continue (by omega) hc2 hs2 (by decide)]
  rw [wait_aux_reset (by omega) hc3 hs3]
  rw [wait_aux_continue (by omega) hc4 hs4 (by decide)]
  rw [wait_aux_continue (by omega) hc5 hs5 (by decide)]
  rw [wait_aux_success (by omega) hc6 hs6 (by decide)]

/-- Witness for C1: two in-sync polls, one lagging poll, then three in-sync
    polls, with a 300 second budget and 5 second interval. -/
theorem claim_c1_witness :
    wait_for_sync 300 5
      [envHealthy, envHealthy, envLaggy, envHealthy, envHealthy, envHealthy] = (.success, 6)
    ∧ counterTrace [true, true, false, true, true, true] = [1, 2, 0, 1, 2, 3] :=
  claim_c1_sync_gate_sequence 300 5 envHealthy envHealthy envLaggy envHealthy envHealthy
    envHealthy mHealthy mHealthy mLaggy mHealthy mHealthy mHealthy []
    collect_envHealthy collect_envHealthy collect_envLaggy collect_envHealthy
    collect_envHealthy collect_envHealthy
    is_synced_mHealthy is_synced_mHealthy is_synced_mLaggy is_synced_mHealthy
    is_synced_mHealthy is_synced_mHealthy (by norm_num)

/-- promotePollLoop when every earlier poll reported the recovery flag still
    set and poll i reports it clear: the loop returns promoted after its
    i + 1 polls, from any start index at or below i. -/
lemma promotePollLoop_clears (polls : Nat → Except String Bool) (i : Nat) (hi : i < 30)
    (hbefore : ∀ j, j < i → polls j = .ok true) (hat : polls i = .ok false) :
    ∀ s, s ≤ i → promotePollLoop polls s = (.promoted, i + 1) := by
  suffices h : ∀ n s, i - s = n → s ≤ i → promotePollLoop polls s = (.promoted, i + 1) from
    fun s hs => h (i - s) s rfl hs
  intro n
  induction n with
  | zero =>
    intro s hd hs
    have hsi : s = i := by omega
    subst hsi
    rw [promotePollLoop]
    simp [hi, hat]
  | succ n ih =>
    intro s hd hs
    have hsi : s < i := by omega
    have hs30 : s < 30 := by omega
    rw [promotePollLoop]
    simp only [hs30, if_true, hbefore s hsi]
    exact ih (s + 1) (by omega) (by omega)

/-- promotePollLoop when the recovery flag never clears within the bound:
    the loop exhausts all 30 one-second polls and times out. -/
lemma promotePollLoop_never_clears (polls : Nat → Except String Bool)
    (hall : ∀ j, j < 30 → polls j = .ok true) :
    ∀ s, s ≤ 30 → promotePollLoop polls s = (.timeout, 30) := by
  suffices h : ∀ n s, 30 - s = n → s ≤ 30 → promotePollLoop polls s = (.timeout, 30) from
    fun s hs => h (30 - s) s rfl hs
  intro n
  induction n with
  | zero =>
    intro s hd hs
    have hsi : s = 30 := by omega
    subst hsi
    rw [promotePollLoop]
    simp
  | succ n ih =>
    intro s hd hs
    have hs30 : s < 30 := by omega
    rw [promotePollLoop]
    simp only [hs30, if_true, hall s hs30]
    exact ih (s + 1) (by omega) (by omega)

/-- C9: promote_replica issues the promotion command exactly once per live
    run, then polls the recovery flag once per second within a 30 second
    bound, succeeding at the first poll where the flag is clear; exhausting
    the bound is a timeout, a failure kind distinct from the promotion
    command being rejected. -/
theorem claim_c9_promote_once_poll_bounded (env : PromoteEnv) :
    (promote_replica false env).2.count "SELECT pg_promote()" = 1
    ∧ (∀ i, i < 30 → (∀ j, j < i → env.recoveryPolls j = .ok true) →
        env.recoveryPolls i = .ok false → env.promoteCmd = .ok () →
        promote_replica false env =
          (.promoted, "SELECT pg_promote()" :: List.replicate (i + 1) "SELECT pg_is_in_recovery()"))
    ∧ ((∀ j, j < 30 → env.recoveryPolls j = .ok true) → env.promoteCmd = .ok () →
        (promote_replica false env).1 = .timeout)
    ∧ (∀ e, env.promoteCmd = .error e → (promote_replica false env).1 = .failed e)
    ∧ (∀ e, PromoteResult.timeout ≠ PromoteResult.failed e) := by
  refine ⟨?_, ?_, ?_, ?_, ?_⟩
  · cases hcmd : env.promoteCmd with
    | error e => simp [promote_replica, hcmd]
    | ok u =>
      simp only [promote_replica, Bool.false_eq_true, if_false, hcmd]
      rw [List.count_cons_self, List.count_replicate, if_neg (by decide)]
  · intro i hi hbefore hat hcmd
    simp only [promote_replica, Bool.false_eq_true, if_false, hcmd]
    rw [promotePollLoop_clears env.recoveryPolls i hi hbefore hat 0 (by omega)]
  · intro hall hcmd
    simp only [promote_replica, Bool.false_eq_true, if_false, hcmd]
    rw [promotePollLoop_never_clears env.recoveryPolls hall 0 (by omega)]
  · intro e hcmd
    simp [promote_replica, hcmd]
  · intro e h
    exact PromoteResult.noConfusion h

/-- Witness for C9: the flag clears at the third poll, never clears, and the
    command is rejected, at three concrete promote environments. -/
theorem claim_c9_witness :
    (promote_replica false promoteEnvClearsAt2).2.count "SELECT pg_promote()" = 1
    ∧ promote_replica false promoteEnvClearsAt2 =
        (.promoted, "SELECT pg_promote()" :: List.replicate 3 "SELECT pg_is_in_recovery()")
    ∧ (promote_replica false promoteEnvNeverClears).1 = .timeout
    ∧ (promote_replica false promoteEnvRejected).1 = .failed "permission denied" := by
  refine ⟨(claim_c9_promote_once_poll_bounded promoteEnvClearsAt2).1, ?_, ?_, ?_⟩
  · exact (claim_c9_promote_once_poll_bounded promoteEnvClearsAt2).2.1 2 (by omega)
      (by intro j hj; interval_cases j <;> rfl) rfl rfl
  · exact (claim_c9_promote_once_poll_bounded promoteEnvNeverClears).2.2.1
      (fun j _ => rfl) rfl
  · exact (claim_c9_promote_once_poll_bounded promoteEnvRejected).2.2.2.1
      "permission denied" rfl

/-- check_prerequisites reports ready exactly when the issue list it returns
    is empty. -/
lemma check_prerequisites_ready (pe : PrereqEnv) (ok : Bool) (issues : List String)
    (h : check_prerequisites pe = .ok (ok, issues)) : ok = issues.isEmpty := by
  cases hcm : collect_metrics pe.metricsEnv with
  | error e => simp [check_prerequisites, hcm] at h
  | ok m =>
    simp only [check_prerequisites, hcm, Except.ok.injEq, Prod.mk.injEq] at h
    rw [← h.1, ← h.2]

/-- C5 counterexample: with the primary unreachable, the SELECT 1 probe
    failure is collected, but the unshielded collect_metrics call then raises
    out of check_prerequisites instead of the step returning its issue
    list. -/
theorem claim_c5_counterexample :
    check_prerequisites prereqEnvPrimaryDown = .error "connection refused" := rfl

/-- C5 amended: check_prerequisites evaluates all five conditions without
    short-circuiting and returns every applicable issue in one list, and a
    failing connectivity probe is collected as an issue — provided the
    metrics collection succeeds; when the primary-side metrics queries fail,
    the step raises that exception instead of returning the list. -/
theorem claim_c5_amended_all_issues_collected (pe : PrereqEnv) :
    (∀ e, pe.metricsEnv.primary_wal = .error e → check_prerequisites pe = .error e)
    ∧ (∀ ok issues, check_prerequisites pe = .ok (ok, issues) →
        ok = issues.isEmpty
        ∧ (∀ e, pe.primarySelect1 = .error e → ("Cannot connect to primary: " ++ e) ∈ issues)
        ∧ (∀ e, pe.replicaSelect1 = .error e → ("Cannot connect to replica: " ++ e) ∈ issues)
        ∧ (∀ m, collect_metrics pe.metricsEnv = .ok m →
            (¬ m.replica_is_in_recovery = some true →
              "Replica is not in recovery mode" ∈ issues)
            ∧ (¬ m.replication_state = some "streaming" →
                stateIssueMsg m.replication_state ∈ issues)
            ∧ (¬ m.slot_active = some true →
                "Replication slot is not active" ∈ issues))) := by
  constructor
  · intro e he
    simp only [check_prerequisites, collect_metrics, he]
  · intro ok issues h
    cases hcm : collect_metrics pe.metricsEnv with
    | error e => simp [check_prerequisites, hcm] at h
    | ok m0 =>
      simp only [check_prerequisites, hcm, Except.ok.injEq, Prod.mk.injEq] at h
      obtain ⟨hok, hiss⟩ := h
      subst hiss
      refine ⟨hok.symm, ?_, ?_, ?_⟩
      · intro e he
        simp [he, List.mem_append]
      · intro e he
        simp [he, List.mem_append]
      · intro m hm
        have hmm : m0 = m := Except.ok.inj hm
        subst hmm
        refine ⟨?_, ?_, ?_⟩
        · intro hrec
          simp [hrec, List.mem_append]
        · intro hst
          simp [hst, List.mem_append]
        · intro hsl
          simp [hsl, List.mem_append]

/-- Witness for C5 amended: the probe failure is collected as an issue when
    the metrics queries succeed, and the unreachable-primary environment
    raises. -/
theorem claim_c5_witness :
    check_prerequisites prereqEnvPrimaryDown = Except.error "connection refused"
    ∧ "Cannot connect to primary: probe refused" ∈ ["Cannot connect to primary: probe refused"] := by
  refine ⟨(claim_c5_amended_all_issues_collected prereqEnvPrimaryDown).1 "connection refused" rfl, ?_⟩
  exact ((claim_c5_amended_all_issues_collected prereqEnvProbeDown).2 false
    ["Cannot connect to primary: probe refused"] rfl).2.1 "probe refused" rfl

/-- C6 counterexample: with the standby query failing and everything else
    healthy, collect_metrics returns normally with null recovery fields but
    an empty warnings list — no warning about the standby failure is
    recorded in the snapshot, contrary to the claim. -/
theorem claim_c6_counterexample :
    collect_metrics envStandbyDown = .ok mStandbyDown
    ∧ mStandbyDown.warnings = []
    ∧ mStandbyDown.replica_is_in_recovery = none :=
  ⟨collect_envStandbyDown, rfl, rfl⟩

/-- C6 amended: a failing standby query never aborts collect_metrics — the
    call behaves exactly as if the standby query had returned no rows,
    yielding a snapshot with null recovery fields and unchanged warnings;
    the failure is recorded as a log line by check_replica_status, not in the
    snapshot warnings list. -/
theorem claim_c6_amended_standby_failure_logged (env : MetricsEnv) (e : String)
    (he : env.replica_status = .error e) :
    collect_metrics env = collect_metrics { env with replica_status := .ok none }
    ∧ (∀ m, collect_metrics env = .ok m →
        m.replica_is_in_recovery = none
        ∧ m.replica_last_wal_receive_lsn = none
        ∧ m.replica_last_wal_replay_lsn = none)
    ∧ (check_replica_status env.replica_status).2 = ["Could not query replica: " ++ e] := by
  rcases env with ⟨now, pw, rs, sl, st⟩
  simp only at he
  subst he
  refine ⟨?_, ?_, rfl⟩
  · cases pw with
    | error e2 => rfl
    | ok pw =>
      cases rs with
      | error e2 => rfl
      | ok rs =>
        cases sl with
        | error e2 => rfl
        | ok sl => rfl
  · intro m hm
    cases pw with
    | error e2 => simp [collect_metrics] at hm
    | ok pw =>
    cases rs with
    | error e2 => simp [collect_metrics] at hm
    | ok rs =>
    cases sl with
    | error e2 => simp [collect_metrics] at hm
    | ok sl =>
    simp only [collect_metrics, Except.ok.injEq] at hm
    subst hm
    exact ⟨rfl, rfl, rfl⟩

/-- Witness for C6 amended at the standby-down environment. -/
theorem claim_c6_witness :
    collect_metrics envStandbyDown =
      collect_metrics { envStandbyDown with replica_status := .ok none }
    ∧ mStandbyDown.replica_is_in_recovery = none
    ∧ (check_replica_status envStandbyDown.replica_status).2 =
        ["Could not query replica: standby timeout"] := by
  have h := claim_c6_amended_standby_failure_logged envStandbyDown "standby timeout" rfl
  exact ⟨h.1, (h.2.1 mStandbyDown collect_envStandbyDown).1, h.2.2⟩

/-- C7: whenever check_prerequisites reports at least one issue, the run
    aborts at step 1: the sync wait is never invoked, execute_cutover
    returns failure, and the single emitted report carries the failed
    status. -/
theorem claim_c7_prereq_issues_block_sync_wait (env : CutoverEnv) (ok : Bool)
    (issues : List String) (h : check_prerequisites env.prereqEnv = .ok (ok, issues))
    (hne : issues ≠ []) :
    (runCutover env).invoked = [StepName.prerequisites]
    ∧ StepName.syncWait ∉ (runCutover env).invoked
    ∧ (runCutover env).success = false
    ∧ (runCutover env).reports.map (fun r => r.success) = [false] := by
  have hok : ok = issues.isEmpty := check_prerequisites_ready _ _ _ h
  have hfalse : ok = false := by
    rw [hok]
    cases issues with
    | nil => exact absurd rfl hne
    | cons a l => rfl
  subst hfalse
  have hbody : cutoverBody (stepOutcomesOf env) = (.ok false, [.prerequisites]) := by
    simp only [cutoverBody, stepOutcomesOf, h]
    simp
  simp only [runCutover, execute_cutover, hbody]
  exact ⟨trivial, by decide, trivial, by simp [generate_cutover_report]⟩

/-- Witness for C7 at the inactive-slot environment. -/
theorem claim_c7_witness :
    (runCutover cutoverEnvSlotInactive).invoked = [StepName.prerequisites]
    ∧ StepName.syncWait ∉ (runCutover cutoverEnvSlotInactive).invoked
    ∧ (runCutover cutoverEnvSlotInactive).success = false
    ∧ (runCutover cutoverEnvSlotInactive).reports.map (fun r => r.success) = [false] :=
  claim_c7_prereq_issues_block_sync_wait cutoverEnvSlotInactive false
    ["Replication slot is not active"] rfl (by simp)
